import Mathlib

/-!
# Verification of the AveTech phone-address microservice

A shallow embedding, in Lean 4, of the behaviour of the phone-address CRUD
microservice (src/main.py, src/objects.py, src/redis_client.py):

* the phone normalizer (the inline generator expression
  `''.join(c for c in phone if c.isdigit() or c == '+')` used in
  `get_address`, `update_address`, `delete_record` and `validate_phone`);
* the expiring key-value store that Redis provides to this service,
  modelled as an association list of (key, value, ttl) entries;
* the `AsyncRedisManager` client layer (src/redis_client.py), whose
  operations catch every lower-level fault and return a sentinel;
* the HTTP resource handlers (src/main.py) composed with the pydantic
  validation layer (src/objects.py), with FastAPI's 422-on-validation-error
  behaviour made explicit in the `*_endpoint` wrappers.

Handlers are embedded in their sequential, fault-free semantics (every
store call reaches the store and succeeds); the client layer's fault
handling is embedded separately, with the lower-level call's outcome as an
explicit parameter.
-/

/-- Phone normalizer: `''.join(c for c in phone if c.isdigit() or c == '+')`
(src/main.py lines 102, 216, 269 and src/objects.py line 12).
`Char.isDigit` models Python's `str.isdigit` on the decimal digits. -/
def normalizePhone (s : String) : String :=
  String.mk (s.data.filter (fun c => c.isDigit || c == '+'))

/-! ## The expiring key-value store

One entry per live key: `(key, value, ttl)` where `ttl` is the expiration
in seconds most recently set by SETEX. The service-level operations below
give the sequential, fault-free semantics of the Redis commands the client
layer issues (GET, SETEX, EXISTS, DEL, KEYS). -/

/-- The store state: a list of (key, value, ttl-seconds) entries. -/
abbrev Store := List (String × String × Nat)

/-- GET: the value stored under `key`, if any. -/
def storeGet : Store → String → Option String
  | [], _ => none
  | (k, v, _) :: es, key => if k == key then some v else storeGet es key

/-- The ttl recorded for `key`, if a live entry exists. -/
def storeTTL : Store → String → Option Nat
  | [], _ => none
  | (k, _, t) :: es, key => if k == key then some t else storeTTL es key

/-- EXISTS: whether a live entry for `key` is present. -/
def storeExists (s : Store) (key : String) : Bool :=
  s.any (fun e => e.1 == key)

/-- SETEX: write `value` under `key` with expiration `ttl`, replacing any
previous entry for `key`. -/
def storeSet (s : Store) (key value : String) (ttl : Nat) : Store :=
  s.filter (fun e => e.1 != key) ++ [(key, value, ttl)]

/-- DEL: remove every entry for `key`. -/
def storeDelete (s : Store) (key : String) : Store :=
  s.filter (fun e => e.1 != key)

/-- The count DEL reports: how many keys were removed. -/
def storeDeleteCount (s : Store) (key : String) : Nat :=
  s.countP (fun e => e.1 == key)

/-- KEYS "*": the full key enumeration, in store order. -/
def storeKeys (s : Store) : List String := s.map (fun e => e.1)

/-! ## The Record Store Client (src/redis_client.py, `AsyncRedisManager`)

Each method wraps one lower-level Redis call in `try/except`: the call
either returns a value or raises. The outcome of that lower-level call is
the explicit `LowLevel` parameter here; the method body translates it
exactly as the Python `try`/`except` does. -/

/-- Outcome of one lower-level store call: a returned value, or a raised
exception (any `Exception`, including the client-not-initialized
`RuntimeError`). -/
inductive LowLevel (α : Type) where
  | ok (a : α) : LowLevel α
  | fault : LowLevel α

namespace AsyncRedisManager

/-- `set_data` (src/redis_client.py lines 61-75): the SETEX/SET call either
succeeds (return `True`) or raises (caught, return `False`). -/
def set_data (low : LowLevel Unit) : Bool :=
  match low with
  | .ok _ => true
  | .fault => false

/-- `get_data` (lines 77-87): return the GET result, or `None` when the
call raises. -/
def get_data (low : LowLevel (Option String)) : Option String :=
  match low with
  | .ok v => v
  | .fault => none

/-- `delete_key` (lines 109-120): `result > 0` where `result` is the count
DEL reports; `False` when the call raises. -/
def delete_key (low : LowLevel Nat) : Bool :=
  match low with
  | .ok n => decide (0 < n)
  | .fault => false

/-- `exists` (lines 122-132; named `exists_key` here because `exists` is
reserved in Lean): `result > 0` where `result` is the count EXISTS
reports; `False` when the call raises. -/
def exists_key (low : LowLevel Nat) : Bool :=
  match low with
  | .ok n => decide (0 < n)
  | .fault => false

/-- `keys` (lines 134-143): the KEYS enumeration, or `[]` when the call
raises. -/
def keys (low : LowLevel (List String)) : List String :=
  match low with
  | .ok ks => ks
  | .fault => []

end AsyncRedisManager

/-! ## Store lemmas -/

theorem storeGet_isSome_of_storeExists (s : Store) (k : String)
    (h : storeExists s k = true) : ∃ v, storeGet s k = some v := by
  induction s with
  | nil => simp [storeExists] at h
  | cons e es ih =>
    obtain ⟨k0, v0, t0⟩ := e
    by_cases hk : k0 == k
    · exact ⟨v0, by simp [storeGet, hk]⟩
    · simp only [storeExists, List.any_cons] at h
      rw [Bool.or_eq_true] at h
      rcases h with h | h
      · exact absurd h hk
      · obtain ⟨v, hv⟩ := ih h
        exact ⟨v, by simp [storeGet, hk, hv]⟩

theorem storeGet_storeDelete_self (s : Store) (k : String) :
    storeGet (storeDelete s k) k = none := by
  induction s with
  | nil => rfl
  | cons e es ih =>
    obtain ⟨k0, v0, t0⟩ := e
    simp only [storeDelete, List.filter_cons] at ih ⊢
    by_cases hk : k0 == k
    · simpa [bne, hk] using ih
    · simpa [bne, hk, storeGet] using ih

theorem storeGet_storeSet_self (s : Store) (k v : String) (t : Nat) :
    storeGet (storeSet s k v t) k = some v := by
  induction s with
  | nil => simp [storeSet, storeGet]
  | cons e es ih =>
    obtain ⟨k0, v0, t0⟩ := e
    simp only [storeSet, List.filter_cons] at ih ⊢
    by_cases hk : k0 == k
    · simpa [bne, hk] using ih
    · simpa [bne, hk, storeGet] using ih

theorem storeTTL_storeSet_self (s : Store) (k v : String) (t : Nat) :
    storeTTL (storeSet s k v t) k = some t := by
  induction s with
  | nil => simp [storeSet, storeTTL]
  | cons e es ih =>
    obtain ⟨k0, v0, t0⟩ := e
    simp only [storeSet, List.filter_cons] at ih ⊢
    by_cases hk : k0 == k
    · simpa [bne, hk] using ih
    · simpa [bne, hk, storeTTL] using ih

theorem storeDeleteCount_pos_of_storeExists (s : Store) (k : String)
    (h : storeExists s k = true) : 0 < storeDeleteCount s k := by
  simp only [storeExists, List.any_eq_true] at h
  obtain ⟨e, he, hk⟩ := h
  exact List.countP_pos_iff.mpr ⟨e, he, hk⟩

/-! ## The validation layer (src/objects.py)

`PhoneAddressCreate` declares `phone` with `min_length=10, max_length=20`
and `address` with `min_length=5, max_length=500`, plus a
`mode='before'` field validator on `phone` that normalizes it and
rejects a normalized result shorter than 10 characters; the Field length
bounds then apply to the normalized value. `AddressUpdate` declares
`address` with `min_length=5, max_length=500`. -/

/-- A validated create payload: the (already normalized) phone and the
address, as `PhoneAddressCreate` holds them after parsing. -/
structure PhoneAddressCreate where
  phone : String
  address : String
deriving DecidableEq, Repr

/-- A validated update payload, as `AddressUpdate` holds it. -/
structure AddressUpdate where
  address : String
deriving DecidableEq, Repr

/-- `validate_phone` (src/objects.py lines 8-18): normalize, then require
at least 10 characters, else raise `ValueError` with a message. -/
def validate_phone (v : String) : Except String String :=
  let cleaned := normalizePhone v
  if cleaned.length < 10 then
    Except.error "phone number must contain at least 10 digits"
  else
    Except.ok cleaned

/-- Parsing a create payload: the `mode='before'` validator runs first,
then the `Field` length bounds are checked on its result for `phone` and
on the raw string for `address`. Any failure is a pydantic validation
error. -/
def PhoneAddressCreate.parse (phone address : String) :
    Except String PhoneAddressCreate :=
  match validate_phone phone with
  | Except.error e => Except.error e
  | Except.ok cleaned =>
    if cleaned.length < 10 then Except.error "phone shorter than 10"
    else if 20 < cleaned.length then Except.error "phone longer than 20"
    else if address.length < 5 then Except.error "address shorter than 5"
    else if 500 < address.length then Except.error "address longer than 500"
    else Except.ok ⟨cleaned, address⟩

/-- Parsing an update payload: only the `address` length bounds. -/
def AddressUpdate.parse (address : String) : Except String AddressUpdate :=
  if address.length < 5 then Except.error "address shorter than 5"
  else if 500 < address.length then Except.error "address longer than 500"
  else Except.ok ⟨address⟩

/-! ## The Record Resource Handlers (src/main.py)

Embedded in their sequential, fault-free semantics: every store call the
handler issues reaches the store and the lower-level call succeeds, so the
client layer returns the store's true answer. Each result type records the
HTTP status code and the body fields the handler produces. -/

/-- `30 * 24 * 60 * 60`, the TTL every create and update applies. -/
def ttl30days : Nat := 30 * 24 * 60 * 60

/-- Result of `GET /health`. -/
structure HealthResult where
  status : Nat
  detail : String
deriving DecidableEq, Repr

set_option linter.unusedVariables false in
/-- `health_check` (src/main.py lines 57-78): the `try` block raises
`HTTPException(503, "Redis connection failed")` unconditionally, before
its `return` statement and without consulting the store; the
`except Exception` clause catches that exception and raises
`HTTPException(503, f"Service unhealthy: {e}")`. The parameter
`storeReachable` is the actual connectivity of the store; the body never
uses it, exactly as the Python body never uses `redis`. -/
def health_check (storeReachable : Bool) : HealthResult :=
  { status := 503
    detail := "Service unhealthy: 503: Redis connection failed" }

/-- Result of `GET /phones/{phone}`. -/
inductive GetAddressResult where
  | notFound (status : Nat) (detail : String)
  | success (status : Nat) (phone address : String)
deriving DecidableEq, Repr

/-- `get_address` (src/main.py lines 81-119): normalize the path phone,
GET it; absent → 404, present → 200 with phone and address. -/
def get_address (store : Store) (phone : String) : GetAddressResult :=
  let cleaned := normalizePhone phone
  match storeGet store cleaned with
  | none =>
    GetAddressResult.notFound 404 ("Address not found for phone: " ++ cleaned)
  | some address => GetAddressResult.success 200 cleaned address

/-- Result of the `create_record` handler body. -/
inductive CreateResult where
  | conflict (status : Nat) (existing_address : Option String)
  | serverError (status : Nat)
  | created (status : Nat) (phone address : String) (ttl_days : Nat)
deriving DecidableEq, Repr

/-- `create_record` (src/main.py lines 122-184), on a validated payload:
EXISTS → if present, GET the existing address and raise 409 with it (no
write); else SETEX with the 30-day TTL and return 201. The fault-free
SETEX succeeds, so the 500 branch is not taken. -/
def create_record (store : Store) (data : PhoneAddressCreate) :
    CreateResult × Store :=
  if storeExists store data.phone then
    (CreateResult.conflict 409 (storeGet store data.phone), store)
  else
    (CreateResult.created 201 data.phone data.address 30,
     storeSet store data.phone data.address ttl30days)

/-- Result of the `update_address` handler body. -/
inductive UpdateResult where
  | notFound (status : Nat) (detail : String)
  | serverError (status : Nat)
  | updated (status : Nat) (phone address : String)
deriving DecidableEq, Repr

/-- `update_address` (src/main.py lines 187-247): normalize the path
phone, EXISTS → if absent, 404 (no write); else SETEX the new address
with a fresh 30-day TTL and return 200. The fault-free SETEX succeeds, so
the 500 branch is not taken. -/
def update_address (store : Store) (phone : String) (data : AddressUpdate) :
    UpdateResult × Store :=
  let cleaned := normalizePhone phone
  if storeExists store cleaned then
    (UpdateResult.updated 200 cleaned data.address,
     storeSet store cleaned data.address ttl30days)
  else
    (UpdateResult.notFound 404 ("Phone " ++ cleaned ++ " not found"), store)

/-- Result of the `delete_record` handler body; `noContent` carries no
body fields because the handler returns nothing. -/
inductive DeleteResult where
  | notFound (status : Nat) (detail : String)
  | serverError (status : Nat)
  | noContent (status : Nat)
deriving DecidableEq, Repr

/-- `delete_record` (src/main.py lines 250-290): normalize the path
phone, EXISTS → if absent, 404 (no delete); else DEL, and if DEL reports
zero keys removed, 500, else 204 with no body. -/
def delete_record (store : Store) (phone : String) : DeleteResult × Store :=
  let cleaned := normalizePhone phone
  if storeExists store cleaned then
    if 0 < storeDeleteCount store cleaned then
      (DeleteResult.noContent 204, storeDelete store cleaned)
    else
      (DeleteResult.serverError 500, storeDelete store cleaned)
  else
    (DeleteResult.notFound 404 ("Phone " ++ cleaned ++ " not found"), store)

/-- Result of `GET /admin/records`. -/
structure AdminRecordsResult where
  status : Nat
  total_records : Nat
  displayed_records : Nat
  records : List (String × String)
deriving DecidableEq, Repr

/-- `get_all_records` (src/main.py lines 295-327): KEYS "*" for the full
key list; `all_keys[:limit] if limit > 0 else all_keys`; for each fetched
key GET its value and add it to the `records` dict only `if value` — i.e.
only when the value is present and non-empty (Python truthiness). The
Redis key enumeration contains no duplicate keys, so the dict is this
list. `total_records` is the full key count, `displayed_records` is
`len(records)`. -/
def get_all_records (store : Store) (limit : Int) : AdminRecordsResult :=
  let all_keys := storeKeys store
  let keys_to_fetch := if 0 < limit then all_keys.take limit.toNat else all_keys
  let records := keys_to_fetch.filterMap (fun k =>
    match storeGet store k with
    | some v => if v.isEmpty then none else some (k, v)
    | none => none)
  { status := 200
    total_records := all_keys.length
    displayed_records := records.length
    records := records }

/-! ## Endpoint wrappers: FastAPI body validation

FastAPI parses and validates the request body against the pydantic model
before the handler runs: a validation failure produces a 422 response and
the handler body is never entered, so no store operation happens. -/

/-- `POST /phones` as a whole: 422 on validation failure (store
untouched), otherwise the `create_record` handler. -/
inductive CreateEndpointResult where
  | validationError (status : Nat) (detail : String)
  | handled (r : CreateResult)
deriving DecidableEq, Repr

def create_endpoint (store : Store) (phone address : String) :
    CreateEndpointResult × Store :=
  match PhoneAddressCreate.parse phone address with
  | Except.error e => (CreateEndpointResult.validationError 422 e, store)
  | Except.ok data =>
    let r := create_record store data
    (CreateEndpointResult.handled r.1, r.2)

/-- `PUT /phones/{phone}` as a whole: 422 on validation failure (store
untouched), otherwise the `update_address` handler. -/
inductive UpdateEndpointResult where
  | validationError (status : Nat) (detail : String)
  | handled (r : UpdateResult)
deriving DecidableEq, Repr

def update_endpoint (store : Store) (phone address : String) :
    UpdateEndpointResult × Store :=
  match AddressUpdate.parse address with
  | Except.error e => (UpdateEndpointResult.validationError 422 e, store)
  | Except.ok data =>
    let r := update_address store phone data
    (UpdateEndpointResult.handled r.1, r.2)

/-! ## Claim theorems -/

/-- C1: the claim says `GET /health` performs a real connectivity probe
and reports 200 when the store is reachable, 503 when it is not. The code
does neither: `health_check` raises HTTPException(503) unconditionally,
before ever touching the store, so even with a reachable store the
response is 503. This evaluates the handler on both probe outcomes. -/
theorem health_check_always_503 :
    health_check true =
      { status := 503
        detail := "Service unhealthy: 503: Redis connection failed" } ∧
    (health_check true).status = 503 ∧ (health_check false).status = 503 :=
  ⟨rfl, rfl, rfl⟩

/-- C2: phone normalization returns exactly the subsequence of the input
made of the decimal digits and `+`, in original relative order: it is a
sublist of the input, every kept character is a digit or `+`, and every
digit or `+` occurrence of the input is kept (occurrence counts agree).
It is a total Lean function, hence pure and deterministic. -/
theorem normalizePhone_spec (s : String) :
    (normalizePhone s).data.Sublist s.data ∧
    (∀ c ∈ (normalizePhone s).data, c.isDigit = true ∨ c = '+') ∧
    (∀ c : Char, (c.isDigit = true ∨ c = '+') →
      (normalizePhone s).data.count c = s.data.count c) := by
  refine ⟨List.filter_sublist s.data, ?_, ?_⟩
  · intro c hc
    have := (List.mem_filter.mp hc).2
    rcases Bool.or_eq_true _ _ |>.mp this with h | h
    · exact Or.inl h
    · exact Or.inr (by simpa using h)
  · intro c hc
    apply List.count_filter
    rcases hc with h | h
    · simp [h]
    · simp [h]

/-- Witness for C2 at the concrete input `"+7 (916) ab"`. -/
theorem normalizePhone_spec_witness :
    (normalizePhone "+7 (916) ab").data.Sublist ("+7 (916) ab").data ∧
    (normalizePhone "+7 (916) ab").data.count '+' =
      ("+7 (916) ab").data.count '+' :=
  ⟨(normalizePhone_spec "+7 (916) ab").1,
   (normalizePhone_spec "+7 (916) ab").2.2 '+' (Or.inr rfl)⟩

/-- C8: normalization is idempotent, and the two concrete examples from
the spec evaluate as stated. -/
theorem normalizePhone_idempotent (s : String) :
    normalizePhone (normalizePhone s) = normalizePhone s ∧
    normalizePhone "8 (916) 123-45-67" = "89161234567" ∧
    normalizePhone "+7 916 123 45 67" = "+79161234567" := by
  refine ⟨?_, by decide, by decide⟩
  show String.mk ((s.data.filter _).filter _) = String.mk (s.data.filter _)
  congr 1
  exact List.filter_eq_self.mpr (fun a ha => (List.mem_filter.mp ha).2)

/-- C7: every operation of `AsyncRedisManager` maps a lower-level fault
to its sentinel instead of raising — `None` for `get_data`, `False` for
`set_data`, `exists` and `delete_key`, `[]` for `keys` — and `delete_key`
also reports failure when DEL removed zero keys. -/
theorem asyncRedisManager_sentinels :
    AsyncRedisManager.get_data LowLevel.fault = none ∧
    AsyncRedisManager.set_data LowLevel.fault = false ∧
    AsyncRedisManager.exists_key LowLevel.fault = false ∧
    AsyncRedisManager.delete_key LowLevel.fault = false ∧
    AsyncRedisManager.keys LowLevel.fault = [] ∧
    AsyncRedisManager.delete_key (LowLevel.ok 0) = false :=
  ⟨rfl, rfl, rfl, rfl, rfl, rfl⟩

/-- C3: when the validated, normalized phone of a create request already
exists in the store, the handler answers 409 carrying the currently
stored address (which is present, fetched via GET), and the store is
unchanged — no write happens on the conflict path. -/
theorem create_record_conflict (store : Store) (data : PhoneAddressCreate)
    (h : storeExists store data.phone = true) :
    (create_record store data).1 =
      CreateResult.conflict 409 (storeGet store data.phone) ∧
    (create_record store data).2 = store ∧
    ∃ a, storeGet store data.phone = some a := by
  refine ⟨?_, ?_, storeGet_isSome_of_storeExists store data.phone h⟩ <;>
    simp [create_record, h]

/-- Witness for C3: a second create of `"1234567890"` against a store
already holding it. -/
theorem create_record_conflict_witness :
    (create_record [("1234567890", "addr A", 2592000)]
        ⟨"1234567890", "addr B"⟩).1 =
      CreateResult.conflict 409
        (storeGet [("1234567890", "addr A", 2592000)] "1234567890") ∧
    (create_record [("1234567890", "addr A", 2592000)]
        ⟨"1234567890", "addr B"⟩).2 = [("1234567890", "addr A", 2592000)] ∧
    ∃ a, storeGet [("1234567890", "addr A", 2592000)] "1234567890" = some a :=
  create_record_conflict [("1234567890", "addr A", 2592000)]
    ⟨"1234567890", "addr B"⟩ rfl

/-- C4: an update of an absent normalized phone answers 404 and leaves
the store unchanged (update never creates); an update of a present phone
answers 200 with the new address, and afterwards the store holds the new
address under that phone with a fresh 2,592,000-second TTL. -/
theorem update_address_spec (store : Store) (phone : String)
    (data : AddressUpdate) :
    (storeExists store (normalizePhone phone) = false →
      update_address store phone data =
        (UpdateResult.notFound 404
          ("Phone " ++ normalizePhone phone ++ " not found"), store)) ∧
    (storeExists store (normalizePhone phone) = true →
      (update_address store phone data).1 =
        UpdateResult.updated 200 (normalizePhone phone) data.address ∧
      storeGet (update_address store phone data).2 (normalizePhone phone) =
        some data.address ∧
      storeTTL (update_address store phone data).2 (normalizePhone phone) =
        some 2592000) := by
  constructor
  · intro h
    simp [update_address, h]
  · intro h
    refine ⟨by simp [update_address, h], ?_, ?_⟩
    · simpa [update_address, h] using
        storeGet_storeSet_self store (normalizePhone phone) data.address
          ttl30days
    · have := storeTTL_storeSet_self store (normalizePhone phone)
        data.address ttl30days
      simpa [update_address, h, ttl30days] using this

/-- Witness for C4: the 404 branch on an empty store, and the 200 branch
on a store holding the phone. -/
theorem update_address_spec_witness :
    update_address ([] : Store) "123" ⟨"new address"⟩ =
      (UpdateResult.notFound 404
        ("Phone " ++ normalizePhone "123" ++ " not found"), ([] : Store)) ∧
    (update_address [("1234567890", "old address", 5)] "1234567890"
        ⟨"new address"⟩).1 =
      UpdateResult.updated 200 (normalizePhone "1234567890") "new address" ∧
    storeTTL (update_address [("1234567890", "old address", 5)] "1234567890"
        ⟨"new address"⟩).2 (normalizePhone "1234567890") = some 2592000 :=
  ⟨(update_address_spec [] "123" ⟨"new address"⟩).1 rfl,
   ((update_address_spec [("1234567890", "old address", 5)] "1234567890"
      ⟨"new address"⟩).2 rfl).1,
   ((update_address_spec [("1234567890", "old address", 5)] "1234567890"
      ⟨"new address"⟩).2 rfl).2.2⟩

/-- C5: deleting a present phone answers 204 (a bodiless result) and
removes the key, so a subsequent read of the same phone answers 404;
deleting an absent phone answers 404, not 204, and leaves the store
unchanged. -/
theorem delete_record_spec (store : Store) (phone : String) :
    (storeExists store (normalizePhone phone) = true →
      delete_record store phone =
        (DeleteResult.noContent 204,
         storeDelete store (normalizePhone phone)) ∧
      storeGet (storeDelete store (normalizePhone phone))
        (normalizePhone phone) = none ∧
      get_address (storeDelete store (normalizePhone phone)) phone =
        GetAddressResult.notFound 404
          ("Address not found for phone: " ++ normalizePhone phone)) ∧
    (storeExists store (normalizePhone phone) = false →
      delete_record store phone =
        (DeleteResult.notFound 404
          ("Phone " ++ normalizePhone phone ++ " not found"), store)) := by
  constructor
  · intro h
    have hc := storeDeleteCount_pos_of_storeExists store (normalizePhone phone) h
    have hg := storeGet_storeDelete_self store (normalizePhone phone)
    refine ⟨by simp [delete_record, h, hc], hg, ?_⟩
    simp [get_address, hg]
  · intro h
    simp [delete_record, h]

/-- Witness for C5: deleting `"1234567890"` from a store holding it, and
deleting from the empty store. -/
theorem delete_record_spec_witness :
    delete_record [("1234567890", "addr A", 2592000)] "1234567890" =
      (DeleteResult.noContent 204,
       storeDelete [("1234567890", "addr A", 2592000)]
         (normalizePhone "1234567890")) ∧
    get_address (storeDelete [("1234567890", "addr A", 2592000)]
        (normalizePhone "1234567890")) "1234567890" =
      GetAddressResult.notFound 404
        ("Address not found for phone: " ++ normalizePhone "1234567890") ∧
    delete_record ([] : Store) "123" =
      (DeleteResult.notFound 404
        ("Phone " ++ normalizePhone "123" ++ " not found"), ([] : Store)) :=
  ⟨((delete_record_spec [("1234567890", "addr A", 2592000)] "1234567890").1
      rfl).1,
   ((delete_record_spec [("1234567890", "addr A", 2592000)] "1234567890").1
      rfl).2.2,
   (delete_record_spec [] "123").2 rfl⟩

/-- A ten-key store used to exercise the administrative listing. -/
def adminDemoStore : Store :=
  [("p0", "addr 0", 1), ("p1", "addr 1", 1), ("p2", "addr 2", 1),
   ("p3", "addr 3", 1), ("p4", "addr 4", 1), ("p5", "addr 5", 1),
   ("p6", "addr 6", 1), ("p7", "addr 7", 1), ("p8", "addr 8", 1),
   ("p9", "addr 9", 1)]

/-- C6: `GET /admin/records` reports `total_records` equal to the length
of the full key list; every returned record's key comes from the fetched
prefix (the first `limit` keys when `limit > 0`, all keys when
`limit ≤ 0`) and carries the value GET returns for it; a fetched key
whose value is absent appears in no returned record; and
`displayed_records` is the number of returned records. -/
theorem get_all_records_spec (store : Store) (limit : Int) :
    (get_all_records store limit).status = 200 ∧
    (get_all_records store limit).total_records = (storeKeys store).length ∧
    (get_all_records store limit).displayed_records =
      (get_all_records store limit).records.length ∧
    (∀ k v, (k, v) ∈ (get_all_records store limit).records →
      k ∈ (if 0 < limit then (storeKeys store).take limit.toNat
           else storeKeys store) ∧
      storeGet store k = some v) ∧
    (∀ k, k ∈ (if 0 < limit then (storeKeys store).take limit.toNat
               else storeKeys store) →
      storeGet store k = none →
      ∀ v, (k, v) ∉ (get_all_records store limit).records) := by
  have hmem : ∀ k v, (k, v) ∈ (get_all_records store limit).records →
      k ∈ (if 0 < limit then (storeKeys store).take limit.toNat
           else storeKeys store) ∧
      storeGet store k = some v := by
    intro k v hkv
    simp only [get_all_records, List.mem_filterMap] at hkv
    obtain ⟨a, ha, hf⟩ := hkv
    rcases hsg : storeGet store a with _ | v0
    · simp [hsg] at hf
    · rw [hsg] at hf
      by_cases he : v0.isEmpty
      · simp [he] at hf
      · simp only [he, if_neg, ite_false, Option.some.injEq, Prod.mk.injEq]
          at hf
        obtain ⟨rfl, rfl⟩ := hf
        exact ⟨ha, hsg⟩
  refine ⟨rfl, rfl, rfl, hmem, ?_⟩
  intro k hk hnone v hkv
  have := (hmem k v hkv).2
  rw [hnone] at this
  exact Option.noConfusion this

/-- Witness for C6: ten stored keys with `limit = 5` yield
`total_records = 10` and `displayed_records = 5`, and the record for
`"p0"` is the stored value. -/
theorem get_all_records_spec_witness :
    (get_all_records adminDemoStore 5).total_records = 10 ∧
    (get_all_records adminDemoStore 5).displayed_records = 5 ∧
    ("p0" ∈ (if 0 < (5 : Int) then
        (storeKeys adminDemoStore).take (5 : Int).toNat
      else storeKeys adminDemoStore) ∧
     storeGet adminDemoStore "p0" = some "addr 0") :=
  ⟨rfl, rfl,
   (get_all_records_spec adminDemoStore 5).2.2.2.1 "p0" "addr 0" (by decide)⟩

/-- C9: a create payload with a length-4 address is rejected with a 422
validation error and the store untouched; so is an update payload with a
length-4 address; so is a create payload whose phone normalizes to fewer
than 10 characters. The 422 status is distinct from 404 and 500, which
only other constructors carry. -/
theorem validation_boundaries (store : Store) (phone address : String) :
    (address.length = 4 →
      (∃ e, create_endpoint store phone address =
        (CreateEndpointResult.validationError 422 e, store)) ∧
      (∃ e, update_endpoint store phone address =
        (UpdateEndpointResult.validationError 422 e, store))) ∧
    ((normalizePhone phone).length < 10 →
      ∃ e, create_endpoint store phone address =
        (CreateEndpointResult.validationError 422 e, store)) := by
  constructor
  · intro h4
    constructor
    · by_cases h10 : (normalizePhone phone).length < 10
      · exact ⟨"phone number must contain at least 10 digits",
          by simp [create_endpoint, PhoneAddressCreate.parse,
            validate_phone, h10]⟩
      · by_cases h20 : 20 < (normalizePhone phone).length
        · exact ⟨"phone longer than 20",
            by simp [create_endpoint, PhoneAddressCreate.parse,
              validate_phone, h10, h20]⟩
        · exact ⟨"address shorter than 5",
            by simp [create_endpoint, PhoneAddressCreate.parse,
              validate_phone, h10, h20, h4]⟩
    · exact ⟨"address shorter than 5",
        by simp [update_endpoint, AddressUpdate.parse, h4]⟩
  · intro h10
    exact ⟨"phone number must contain at least 10 digits",
      by simp [create_endpoint, PhoneAddressCreate.parse,
        validate_phone, h10]⟩

/-- Witness for C9: the length-4 address `"abcd"` on create and update,
and the short phone `"123"` on create. -/
theorem validation_boundaries_witness :
    ((∃ e, create_endpoint ([] : Store) "+79161234567" "abcd" =
        (CreateEndpointResult.validationError 422 e, ([] : Store))) ∧
     (∃ e, update_endpoint ([] : Store) "+79161234567" "abcd" =
        (UpdateEndpointResult.validationError 422 e, ([] : Store)))) ∧
    (∃ e, create_endpoint ([] : Store) "123" "a proper address" =
        (CreateEndpointResult.validationError 422 e, ([] : Store))) :=
  ⟨(validation_boundaries [] "+79161234567" "abcd").1 rfl,
   (validation_boundaries [] "123" "a proper address").2 (by decide)⟩

/-- C10: a create payload whose phone normalizes to more than 20
characters is rejected with a 422 validation error and the store is
untouched — the normalized phone's `max_length=20` upper bound, which the
spec does not state. -/
theorem create_rejects_long_phone (store : Store) (phone address : String)
    (h : 20 < (normalizePhone phone).length) :
    ∃ e, create_endpoint store phone address =
      (CreateEndpointResult.validationError 422 e, store) := by
  have h10 : ¬ (normalizePhone phone).length < 10 := by omega
  exact ⟨"phone longer than 20",
    by simp [create_endpoint, PhoneAddressCreate.parse,
      validate_phone, h10, h]⟩

/-- Witness for C10: a 21-digit phone is rejected on create. -/
theorem create_rejects_long_phone_witness :
    ∃ e, create_endpoint ([] : Store) "123456789012345678901"
        "a proper address" =
      (CreateEndpointResult.validationError 422 e, ([] : Store)) :=
  create_rejects_long_phone [] "123456789012345678901" "a proper address"
    (by decide)
